import Mathlib

/-!
Verification of the shader-handling core of a minimal OpenGL sample
(`src/OpenGL/src/Application.cpp`): the shader source splitter
(`ParseShader`), the shader program builder (`CompileShader` /
`CreateShader`), the uniform-location setup, and the per-frame color
animation in `render`.

The C++ is embedded shallowly:

* `ParseShader` reads lines with `std::getline` and routes them into
  per-type `stringstream` buckets; we model the text as the list of
  lines `getline` yields and the buckets as `String` accumulators.
* The OpenGL driver is an external collaborator; we model it as a
  record of oracles (`GLDriver`, `UniformDriver`) and record every GL
  call the code issues in an explicit trace, so that ordering claims
  (log length queried before log text, no detach, no status query) are
  facts about the trace.
* The `float` scalar animation in `render` is modelled with exact
  rational arithmetic; the constants 0.05, 0.01, 0.3, 0.8, 1.0 are the
  corresponding rationals.
-/

/-- Does the character pattern `p` occur at the head of `l`? -/
def matchesAt : List Char → List Char → Bool
  | [], _ => true
  | _ :: _, [] => false
  | c :: p, d :: l => c == d && matchesAt p l

/-- Does the character pattern `p` occur anywhere in `l`? -/
def findSub : List Char → List Char → Bool
  | p, [] => matchesAt p []
  | p, d :: l => matchesAt p (d :: l) || findSub p l

/-- Model of C++ `line.find(pat) != std::string::npos`: substring containment. -/
def strContains (line pat : String) : Bool :=
  findSub pat.toList line.toList

/-- The `ShaderType` enum nested in `ShaderProgramSource` (declared in
`Application.h`, which is not among the sources).  Modelled from the spec:
a small closed tag set with an explicit `NONE` tag for "no active section",
whose bucket absorbs stray lines and is never read back. -/
inductive ShaderType where
  | NONE
  | VERTEX
  | FRAGMENT
  deriving DecidableEq, Repr

/-- Return type of `ParseShader`: the two extracted source strings. -/
structure ShaderProgramSource where
  VertexSource : String
  FragmentSource : String
  deriving DecidableEq, Repr

/-- The loop state of `ParseShader`: the active section `type` and the
per-type accumulators (the `stringstream` buckets; the `NONE` bucket is
modelled from the spec as an explicit safe accumulator). -/
structure ParseState where
  type : ShaderType
  ssNone : String
  ssVertex : String
  ssFragment : String
  deriving DecidableEq, Repr

/-- Append `line` plus a newline to the bucket of the active section
(the C++ `ss[(int)type] << line << '\n'`). -/
def bucketAppend (st : ParseState) (line : String) : ParseState :=
  match st.type with
  | ShaderType.NONE => { st with ssNone := st.ssNone ++ line ++ "\n" }
  | ShaderType.VERTEX => { st with ssVertex := st.ssVertex ++ line ++ "\n" }
  | ShaderType.FRAGMENT => { st with ssFragment := st.ssFragment ++ line ++ "\n" }

/-- One iteration of the `while (getline(...))` loop body of `ParseShader`. -/
def parseLine (st : ParseState) (line : String) : ParseState :=
  if strContains line "#shader" then
    if strContains line "vertex" then { st with type := ShaderType.VERTEX }
    else if strContains line "fragment" then { st with type := ShaderType.FRAGMENT }
    else st
  else
    bucketAppend st line

/-- The whole `getline` loop of `ParseShader`, over the list of lines. -/
def runParse : ParseState → List String → ParseState
  | st, [] => st
  | st, line :: rest => runParse (parseLine st line) rest

/-- Loop entry state of `ParseShader`: `type = NONE`, all buckets empty. -/
def initState : ParseState :=
  { type := ShaderType.NONE, ssNone := "", ssVertex := "", ssFragment := "" }

/-- `ParseShader` on an already line-split text: run the loop and return
the `VERTEX` and `FRAGMENT` buckets (the `NONE` bucket is dropped). -/
def ParseShaderLines (lines : List String) : ShaderProgramSource :=
  let st := runParse initState lines
  { VertexSource := st.ssVertex, FragmentSource := st.ssFragment }

/-- Helper for `getLines`: `cur` is the reversed buffer of the line being
read; a newline terminates the line, and end of input yields the buffer
as a final line only if something was read into it. -/
def getLinesAux (cur : List Char) : List Char → List String
  | [] => if cur.isEmpty then [] else [String.mk cur.reverse]
  | c :: cs =>
    if c = '\n' then String.mk cur.reverse :: getLinesAux [] cs
    else getLinesAux (c :: cur) cs

/-- The lines `std::getline` yields from a text: split on newline; a
trailing newline does not produce an extra empty line. -/
def getLines (s : String) : List String :=
  getLinesAux [] s.toList

/-- `Application::ParseShader` applied to the text of a readable file. -/
def ParseShader (text : String) : ShaderProgramSource :=
  ParseShaderLines (getLines text)

/-- Concatenation of a list of lines, each followed by one newline. -/
def joinLines : List String → String
  | [] => ""
  | l :: rest => l ++ "\n" ++ joinLines rest

/-- `Application::ParseShader` including the `std::ifstream` open: an
unreadable file (`none`) leaves the stream in a failed state, so
`getline` immediately returns false and the loop body never runs. -/
def ParseShaderFile : Option String → ShaderProgramSource
  | none => ParseShaderLines []
  | some text => ParseShader text

/-- Specification-side section switching: the keyword found on a marker
line selects the new active section (`vertex` before `fragment`); an
unrecognized keyword leaves the section unchanged. -/
def newSection (cur : ShaderType) (line : String) : ShaderType :=
  if strContains line "vertex" then ShaderType.VERTEX
  else if strContains line "fragment" then ShaderType.FRAGMENT
  else cur

/-- Specification-side description of one output section, written from the
spec's words: the concatenation, in original order, of every non-marker
line that followed section `t`'s most recent marker, each followed by one
newline; marker lines are discarded. `cur` is the currently active
section. -/
def specSection (t : ShaderType) (cur : ShaderType) : List String → String
  | [] => ""
  | line :: rest =>
    if strContains line "#shader" then specSection t (newSection cur line) rest
    else (if cur = t then line ++ "\n" else "") ++ specSection t cur rest

/-- The active section after processing a list of lines. -/
def lastSection (cur : ShaderType) : List String → ShaderType
  | [] => cur
  | line :: rest =>
    if strContains line "#shader" then lastSection (newSection cur line) rest
    else lastSection cur rest

/-- A marker line is well formed when it carries one of the two
recognized keywords. -/
def wellFormedLine (line : String) : Prop :=
  strContains line "#shader" = true →
    (strContains line "vertex" = true ∨ strContains line "fragment" = true)

instance (line : String) : Decidable (wellFormedLine line) := by
  unfold wellFormedLine; infer_instance

/-! ## Shader program builder (`CompileShader` / `CreateShader`)

The OpenGL driver is an external collaborator.  We model its answers as
oracles keyed by shader type and source text, and we record every GL
call the builder issues in an explicit trace, in program order. -/

def GL_VERTEX_SHADER : Nat := 35633
def GL_FRAGMENT_SHADER : Nat := 35632
def GL_COMPILE_STATUS : Nat := 35713
def GL_INFO_LOG_LENGTH : Nat := 35716
def GL_TRIANGLES : Nat := 4
def GL_UNSIGNED_INT : Nat := 5125

/-- Oracle model of the GL driver's answers to the builder's queries:
whether compiling a (type, source) pair succeeds, the info-log length it
reports, and the info-log text it fills in. -/
structure GLDriver where
  compileOk : Nat → String → Bool
  logLen : Nat → String → Nat
  logText : Nat → String → String

/-- One GL API call issued by the builder, as recorded in the trace.
`detachShaderCall` and `getProgramivCall` are present so that their
absence from the builder's trace is a statable fact: the code never
issues them. -/
inductive GLCall where
  | createShaderCall (ty id : Nat)
  | shaderSourceCall (id : Nat) (src : String)
  | compileShaderCall (id : Nat)
  | getShaderivCall (id pname : Nat)
  | getShaderInfoLogCall (id maxLength : Nat) (message : String)
  | printCall (msg : String)
  | deleteShaderCall (id : Nat)
  | createProgramCall (id : Nat)
  | attachShaderCall (program shader : Nat)
  | linkProgramCall (program : Nat)
  | validateProgramCall (program : Nat)
  | detachShaderCall (program shader : Nat)
  | getProgramivCall (program pname : Nat)
  deriving DecidableEq, Repr

/-- Builder-side state: the next fresh GL object name and the trace of
calls issued so far. -/
structure GLState where
  nextId : Nat
  trace : List GLCall
  deriving DecidableEq, Repr

/-- Record one GL call in the trace. -/
def emit (c : GLCall) (s : GLState) : GLState :=
  { s with trace := s.trace ++ [c] }

/-- The failure message `CompileShader` prints: the ternary
`type == GL_VERTEX_SHADER ? "vertex" : "fragment"` spliced into
`"Failed to compile ... shader!"`. -/
def failMessage (ty : Nat) : String :=
  if ty = GL_VERTEX_SHADER then "Failed to compile vertex shader!"
  else "Failed to compile fragment shader!"

/-- `Application::CompileShader`: create a shader object, attach the
source, compile, query compile status; on failure query the log length,
fetch the log into a buffer of exactly that length, print the failure
message and the log, delete the shader, and return 0; on success return
the shader id. -/
def CompileShader (gl : GLDriver) (ty : Nat) (source : String) (s0 : GLState) :
    Nat × GLState :=
  let id := s0.nextId
  let s1 : GLState := { nextId := s0.nextId + 1,
                        trace := s0.trace ++ [GLCall.createShaderCall ty id] }
  let s2 := emit (GLCall.shaderSourceCall id source) s1
  let s3 := emit (GLCall.compileShaderCall id) s2
  let result := gl.compileOk ty source
  let s4 := emit (GLCall.getShaderivCall id GL_COMPILE_STATUS) s3
  if result = false then
    let length := gl.logLen ty source
    let s5 := emit (GLCall.getShaderivCall id GL_INFO_LOG_LENGTH) s4
    let s6 := emit (GLCall.getShaderInfoLogCall id length (gl.logText ty source)) s5
    let s7 := emit (GLCall.printCall (failMessage ty)) s6
    let s8 := emit (GLCall.printCall (gl.logText ty source)) s7
    let s9 := emit (GLCall.deleteShaderCall id) s8
    (0, s9)
  else
    (id, s4)

/-- `Application::CreateShader`: create a program, compile both stages,
attach both returned units unconditionally, link, validate, delete both
units unconditionally, and return the program name. -/
def CreateShader (gl : GLDriver) (vertexShader fragmentShader : String)
    (s0 : GLState) : Nat × GLState :=
  let program := s0.nextId
  let s1 : GLState := { nextId := s0.nextId + 1,
                        trace := s0.trace ++ [GLCall.createProgramCall program] }
  let vres := CompileShader gl GL_VERTEX_SHADER vertexShader s1
  let fres := CompileShader gl GL_FRAGMENT_SHADER fragmentShader vres.2
  let s4 := emit (GLCall.attachShaderCall program vres.1) fres.2
  let s5 := emit (GLCall.attachShaderCall program fres.1) s4
  let s6 := emit (GLCall.linkProgramCall program) s5
  let s7 := emit (GLCall.validateProgramCall program) s6
  let s8 := emit (GLCall.deleteShaderCall vres.1) s7
  let s9 := emit (GLCall.deleteShaderCall fres.1) s8
  (program, s9)

/-- The calls one `CompileShader` run appends to the trace, given the
fresh id it was handed. -/
def compileEvents (gl : GLDriver) (ty : Nat) (source : String) (id : Nat) :
    List GLCall :=
  [GLCall.createShaderCall ty id, GLCall.shaderSourceCall id source,
   GLCall.compileShaderCall id, GLCall.getShaderivCall id GL_COMPILE_STATUS] ++
  (if gl.compileOk ty source then [] else
    [GLCall.getShaderivCall id GL_INFO_LOG_LENGTH,
     GLCall.getShaderInfoLogCall id (gl.logLen ty source) (gl.logText ty source),
     GLCall.printCall (failMessage ty),
     GLCall.printCall (gl.logText ty source),
     GLCall.deleteShaderCall id])

/-- The unit handle one `CompileShader` run returns: the fresh id on
success, the null sentinel 0 on failure. -/
def compileResult (gl : GLDriver) (ty : Nat) (source : String) (id : Nat) : Nat :=
  if gl.compileOk ty source then id else 0

/-- Is this call a `glDetachShader` call? -/
def GLCall.isDetach : GLCall → Bool
  | GLCall.detachShaderCall _ _ => true
  | _ => false

/-- Is this call a `glGetProgramiv` call (a link or validate status query)? -/
def GLCall.isProgramStatusQuery : GLCall → Bool
  | GLCall.getProgramivCall _ _ => true
  | _ => false

/-- A driver on which every compilation fails, used to exercise the
failure paths at concrete inputs. -/
def failingDriver : GLDriver :=
  { compileOk := fun _ _ => false,
    logLen := fun _ _ => 12,
    logText := fun _ _ => "syntax error" }

/-- A driver on which every compilation succeeds. -/
def okDriver : GLDriver :=
  { compileOk := fun _ _ => true,
    logLen := fun _ _ => 0,
    logText := fun _ _ => "" }

/-! ## Uniform resolution and the per-frame render loop

The `float` scalar `r` and the step `m_Increment` are modelled with
exact rational arithmetic. -/

/-- Oracle model of `glGetUniformLocation`: `-1` means not found,
otherwise a non-negative location. -/
structure UniformDriver where
  getUniformLocation : Nat → String → Int

/-- The application state the render loop touches: the program handle,
the cached uniform location, the animation step `m_Increment`, and the
function-local static scalar `r` of `render`. -/
structure AppState where
  m_Shader : Nat
  m_UniformLoc : Int
  m_Increment : ℚ
  r : ℚ
  deriving DecidableEq, Repr

/-- One GL call issued by `render`.  `getUniformLocationCall` is present
so that its absence from the per-frame trace is a statable fact: the
location is resolved once during `init`, never per frame. -/
inductive RenderCall where
  | useProgramCall (program : Nat)
  | uniform4fCall (loc : Int) (x y z w : ℚ)
  | bindVertexArrayCall
  | bindIndexBufferCall
  | drawElementsCall (mode count ty : Nat)
  | getUniformLocationCall (program : Nat) (name : String)
  deriving DecidableEq, Repr

/-- `Application::render`: bind the program, set the uniform from the
cached location and the current scalar, bind the buffers, draw 6 indices,
then update the animation: if `r > 1` the step becomes `-0.01`, if
`r < 0` it becomes `+0.01`, and `r` advances by the step. -/
def render (st : AppState) : List RenderCall × AppState :=
  let calls := [RenderCall.useProgramCall st.m_Shader,
                RenderCall.uniform4fCall st.m_UniformLoc st.r (3/10) (4/5) 1,
                RenderCall.bindVertexArrayCall,
                RenderCall.bindIndexBufferCall,
                RenderCall.drawElementsCall GL_TRIANGLES 6 GL_UNSIGNED_INT]
  let inc1 := if st.r > 1 then (-1 : ℚ)/100 else st.m_Increment
  let inc2 := if st.r < 0 then (1 : ℚ)/100 else inc1
  (calls, { st with m_Increment := inc2, r := st.r + inc2 })

/-- Advance the render loop `n` frames, keeping only the state. -/
def advanceFrames (n : Nat) (st : AppState) : AppState :=
  match n with
  | 0 => st
  | Nat.succ k => advanceFrames k (render st).2

/-- The uniform-resolution step of `Application::init`:
`m_UniformLoc = glGetUniformLocation(m_Shader, "u_Color")` followed by
`ASSERT(m_UniformLoc != -1)`.  Modelled from the spec: the `ASSERT`
macro is declared in `Renderer.h`, which is not among the sources; the
spec says an assertion failure is fatal and aborts setup, modelled as
`none`.  On success the location is cached in `m_UniformLoc`, the step
starts at `+0.05` (constructor) and the scalar at `0.0` (static init). -/
def initApp (gl : UniformDriver) (program : Nat) : Option AppState :=
  let loc := gl.getUniformLocation program "u_Color"
  if loc = -1 then none
  else some { m_Shader := program, m_UniformLoc := loc,
              m_Increment := 1/20, r := 0 }

/-- An `AppState` as built by a successful `initApp`, for concrete runs
of the animation: step `+0.05`, scalar `0`. -/
def initialApp (program : Nat) (loc : Int) : AppState :=
  { m_Shader := program, m_UniformLoc := loc, m_Increment := 1/20, r := 0 }

/-- A uniform driver that resolves every name to location 5. -/
def foundDriver : UniformDriver :=
  { getUniformLocation := fun _ _ => 5 }

/-- A uniform driver that resolves no name (always `-1`). -/
def lostDriver : UniformDriver :=
  { getUniformLocation := fun _ _ => -1 }

/-! ## Lemmas about the splitter -/

theorem parseLine_marker (st : ParseState) (line : String)
    (hm : strContains line "#shader" = true) :
    parseLine st line = { st with type := newSection st.type line } := by
  simp only [parseLine, newSection, hm, if_true]
  by_cases hv : strContains line "vertex" = true
  · simp [hv]
  · simp only [hv, if_false, Bool.not_eq_true] at *
    by_cases hf : strContains line "fragment" = true
    · simp [hv, hf]
    · simp only [Bool.not_eq_true] at hf
      simp [hv, hf]

theorem parseLine_content (st : ParseState) (line : String)
    (hm : strContains line "#shader" = false) :
    parseLine st line = bucketAppend st line := by
  simp [parseLine, hm]

/-- The active section after the `ParseShader` loop is `lastSection`. -/
theorem runParse_type (ls : List String) : ∀ st : ParseState,
    (runParse st ls).type = lastSection st.type ls := by
  induction ls with
  | nil => intro st; simp [runParse, lastSection]
  | cons line rest ih =>
    intro st
    by_cases hm : strContains line "#shader" = true
    · have h := ih { st with type := newSection st.type line }
      simp only [runParse, parseLine_marker st line hm]
      simpa [lastSection, hm] using h
    · simp only [Bool.not_eq_true] at hm
      have h := ih (bucketAppend st line)
      simp only [runParse, parseLine_content st line hm]
      cases htype : st.type <;>
        simp only [bucketAppend, htype] at h ⊢ <;>
        simp [lastSection, hm, h]

/-- The `VERTEX` bucket of the `ParseShader` loop is exactly the
spec-side vertex section. -/
theorem runParse_ssVertex (ls : List String) : ∀ st : ParseState,
    (runParse st ls).ssVertex =
      st.ssVertex ++ specSection ShaderType.VERTEX st.type ls := by
  induction ls with
  | nil => intro st; simp [runParse, specSection]
  | cons line rest ih =>
    intro st
    by_cases hm : strContains line "#shader" = true
    · have h := ih { st with type := newSection st.type line }
      simp only [runParse, parseLine_marker st line hm]
      simpa [specSection, hm] using h
    · simp only [Bool.not_eq_true] at hm
      have h := ih (bucketAppend st line)
      simp only [runParse, parseLine_content st line hm]
      cases htype : st.type <;>
        simp only [bucketAppend, htype, String.append_assoc] at h ⊢ <;>
        simp [specSection, hm, h, String.append_assoc]

/-- Running the loop over concatenated line lists runs it in sequence. -/
theorem runParse_append (xs ys : List String) : ∀ st : ParseState,
    runParse st (xs ++ ys) = runParse (runParse st xs) ys := by
  induction xs with
  | nil => intro st; rfl
  | cons x rest ih => intro st; simp [runParse, ih]

/-- Without marker lines the active section does not change. -/
theorem lastSection_no_marker : ∀ (pre : List String) (cur : ShaderType),
    (∀ l ∈ pre, strContains l "#shader" = false) →
    lastSection cur pre = cur := by
  intro pre
  induction pre with
  | nil => intro cur _; rfl
  | cons line rest ih =>
    intro cur h
    have hm := h line (by simp)
    simp only [lastSection, hm, Bool.false_eq_true, if_false]
    exact ih cur fun l hl => h l (by simp [hl])

/-- Without marker lines, a section other than the active one collects
nothing. -/
theorem specSection_no_marker_ne : ∀ (pre : List String) (t cur : ShaderType),
    cur ≠ t → (∀ l ∈ pre, strContains l "#shader" = false) →
    specSection t cur pre = "" := by
  intro pre
  induction pre with
  | nil => intro t cur _ _; rfl
  | cons line rest ih =>
    intro t cur hne h
    have hm := h line (by simp)
    simp only [specSection, hm, Bool.false_eq_true, if_false, hne]
    simpa using ih t cur hne fun l hl => h l (by simp [hl])

/-- Without marker lines, the active section collects every line,
each followed by one newline. -/
theorem specSection_no_marker_eq : ∀ (pre : List String) (t : ShaderType),
    (∀ l ∈ pre, strContains l "#shader" = false) →
    specSection t t pre = joinLines pre := by
  intro pre
  induction pre with
  | nil => intro t _; rfl
  | cons line rest ih =>
    intro t h
    have hm := h line (by simp)
    have hrest := ih t fun l hl => h l (by simp [hl])
    simp [specSection, hm, joinLines, hrest, String.append_assoc]

/-- The `FRAGMENT` bucket of the `ParseShader` loop is exactly the
spec-side fragment section. -/
theorem runParse_ssFragment (ls : List String) : ∀ st : ParseState,
    (runParse st ls).ssFragment =
      st.ssFragment ++ specSection ShaderType.FRAGMENT st.type ls := by
  induction ls with
  | nil => intro st; simp [runParse, specSection]
  | cons line rest ih =>
    intro st
    by_cases hm : strContains line "#shader" = true
    · have h := ih { st with type := newSection st.type line }
      simp only [runParse, parseLine_marker st line hm]
      simpa [specSection, hm] using h
    · simp only [Bool.not_eq_true] at hm
      have h := ih (bucketAppend st line)
      simp only [runParse, parseLine_content st line hm]
      cases htype : st.type <;>
        simp only [bucketAppend, htype, String.append_assoc] at h ⊢ <;>
        simp [specSection, hm, h, String.append_assoc]

/-- The `NONE` bucket of the `ParseShader` loop is exactly the spec-side
"no active section" bucket. -/
theorem runParse_ssNone (ls : List String) : ∀ st : ParseState,
    (runParse st ls).ssNone =
      st.ssNone ++ specSection ShaderType.NONE st.type ls := by
  induction ls with
  | nil => intro st; simp [runParse, specSection]
  | cons line rest ih =>
    intro st
    by_cases hm : strContains line "#shader" = true
    · have h := ih { st with type := newSection st.type line }
      simp only [runParse, parseLine_marker st line hm]
      simpa [specSection, hm] using h
    · simp only [Bool.not_eq_true] at hm
      have h := ih (bucketAppend st line)
      simp only [runParse, parseLine_content st line hm]
      cases htype : st.type <;>
        simp only [bucketAppend, htype, String.append_assoc] at h ⊢ <;>
        simp [specSection, hm, h, String.append_assoc]

/-! ## Claims about the splitter -/

/-- Claim C1: for every input whose marker lines are well formed, the
splitter discards each marker line and appends every non-marker line
verbatim plus one newline to the active section, so each output string
is exactly the concatenation of the lines that followed that section's
most recent marker, in original order; in particular
`"#shader vertex\nA\n#shader fragment\nB\n"` splits into vertex source
`"A\n"` and fragment source `"B\n"`. -/
theorem splitter_sections_match_spec (lines : List String)
    (h : ∀ l ∈ lines, wellFormedLine l) :
    (ParseShaderLines lines).VertexSource =
      specSection ShaderType.VERTEX ShaderType.NONE lines ∧
    (ParseShaderLines lines).FragmentSource =
      specSection ShaderType.FRAGMENT ShaderType.NONE lines ∧
    ParseShader "#shader vertex\nA\n#shader fragment\nB\n" =
      { VertexSource := "A\n", FragmentSource := "B\n" } := by
  refine ⟨?_, ?_, by decide⟩
  · simpa [ParseShaderLines, initState] using runParse_ssVertex lines initState
  · simpa [ParseShaderLines, initState] using runParse_ssFragment lines initState

/-- Claim C1 witness at a concrete well-formed input. -/
theorem splitter_sections_match_spec_witness :
    (ParseShaderLines ["#shader vertex", "A"]).VertexSource =
      specSection ShaderType.VERTEX ShaderType.NONE ["#shader vertex", "A"] :=
  (splitter_sections_match_spec ["#shader vertex", "A"] (by decide)).1

/-- Claim C2 counterexample: an unreadable file is silently tolerated,
not reported: `ParseShader` returns the ordinary empty result for it,
indistinguishable from parsing a readable empty file. -/
theorem unreadable_file_silent_counterexample :
    ParseShaderFile none = { VertexSource := "", FragmentSource := "" } ∧
    ParseShaderFile none = ParseShaderFile (some "") := by
  constructor
  · decide
  · decide

/-- Claim C2 amended: if the input shader file cannot be opened, the
`getline` loop never runs, no error is reported, and `ParseShader`
silently returns the result of processing zero lines: empty vertex and
fragment sources. -/
theorem unreadable_file_yields_empty_sources :
    ParseShaderFile none = ParseShaderLines [] ∧
    ParseShaderLines [] = { VertexSource := "", FragmentSource := "" } := by
  constructor
  · decide
  · decide

/-- Claim C3: content lines before the first marker are absorbed into
the safe `NONE` bucket (the active section stays `NONE`), and they
appear in neither output: the splitter's result on `pre ++ rest` is the
same as on `rest` alone. -/
theorem content_before_first_marker_dropped (pre rest : List String)
    (h : ∀ l ∈ pre, strContains l "#shader" = false) :
    (runParse initState pre).ssNone = joinLines pre ∧
    (runParse initState pre).type = ShaderType.NONE ∧
    ParseShaderLines (pre ++ rest) = ParseShaderLines rest := by
  have hT : (runParse initState pre).type = ShaderType.NONE := by
    rw [runParse_type pre initState]
    exact lastSection_no_marker pre ShaderType.NONE h
  have hV0 : (runParse initState pre).ssVertex = "" := by
    rw [runParse_ssVertex pre initState]
    simp [initState,
      specSection_no_marker_ne pre ShaderType.VERTEX ShaderType.NONE (by simp) h]
  have hF0 : (runParse initState pre).ssFragment = "" := by
    rw [runParse_ssFragment pre initState]
    simp [initState,
      specSection_no_marker_ne pre ShaderType.FRAGMENT ShaderType.NONE (by simp) h]
  refine ⟨?_, hT, ?_⟩
  · rw [runParse_ssNone pre initState]
    simp [initState, specSection_no_marker_eq pre ShaderType.NONE h]
  · have h1 : (runParse initState (pre ++ rest)).ssVertex =
        (runParse initState rest).ssVertex := by
      rw [runParse_append pre rest initState,
          runParse_ssVertex rest (runParse initState pre), hV0, hT,
          runParse_ssVertex rest initState]
      simp [initState]
    have h2 : (runParse initState (pre ++ rest)).ssFragment =
        (runParse initState rest).ssFragment := by
      rw [runParse_append pre rest initState,
          runParse_ssFragment rest (runParse initState pre), hF0, hT,
          runParse_ssFragment rest initState]
      simp [initState]
    simp [ParseShaderLines, h1, h2]

/-- Claim C3 witness at a concrete input with content before the first
marker. -/
theorem content_before_first_marker_dropped_witness :
    ParseShaderLines (["stray"] ++ ["#shader vertex", "A"]) =
      ParseShaderLines ["#shader vertex", "A"] :=
  (content_before_first_marker_dropped ["stray"] ["#shader vertex", "A"]
    (by decide)).2.2

/-- Claim C4: with no marker lines at all the splitter does not fail and
both recognized sections come back as empty strings. -/
theorem no_marker_lines_both_empty (lines : List String)
    (h : ∀ l ∈ lines, strContains l "#shader" = false) :
    ParseShaderLines lines = { VertexSource := "", FragmentSource := "" } := by
  have hV0 : (runParse initState lines).ssVertex = "" := by
    rw [runParse_ssVertex lines initState]
    simp [initState,
      specSection_no_marker_ne lines ShaderType.VERTEX ShaderType.NONE (by simp) h]
  have hF0 : (runParse initState lines).ssFragment = "" := by
    rw [runParse_ssFragment lines initState]
    simp [initState,
      specSection_no_marker_ne lines ShaderType.FRAGMENT ShaderType.NONE (by simp) h]
  simp [ParseShaderLines, hV0, hF0]

/-- Claim C4 witness at a concrete marker-free input. -/
theorem no_marker_lines_both_empty_witness :
    ParseShaderLines ["int main;", "x"] =
      { VertexSource := "", FragmentSource := "" } :=
  no_marker_lines_both_empty ["int main;", "x"] (by decide)

/-- Claim C9: a marker line with an unrecognized keyword leaves the
state (active section included) entirely unchanged, and the routing of
sections is driven by exactly the keywords `vertex` and `fragment`. -/
theorem unrecognized_marker_keeps_section (st : ParseState) (line : String)
    (hm : strContains line "#shader" = true)
    (hv : strContains line "vertex" = false)
    (hf : strContains line "fragment" = false) :
    parseLine st line = st ∧
    (∀ (st' : ParseState) (l : String), strContains l "#shader" = true →
      strContains l "vertex" = true →
      (parseLine st' l).type = ShaderType.VERTEX) ∧
    (∀ (st' : ParseState) (l : String), strContains l "#shader" = true →
      strContains l "vertex" = false → strContains l "fragment" = true →
      (parseLine st' l).type = ShaderType.FRAGMENT) := by
  refine ⟨?_, ?_, ?_⟩
  · simp [parseLine, hm, hv, hf]
  · intro st' l h1 h2
    simp [parseLine, h1, h2]
  · intro st' l h1 h2 h3
    simp [parseLine, h1, h2, h3]

/-- Claim C9 witness at a concrete unrecognized marker line. -/
theorem unrecognized_marker_keeps_section_witness :
    parseLine initState "#shader geometry" = initState :=
  (unrecognized_marker_keeps_section initState "#shader geometry"
    (by decide) (by decide) (by decide)).1

/-- Claim C10: marker recognition is substring based: any line containing
`"#shader"` anywhere is discarded (copied into no bucket), even if it is
otherwise ordinary code; and since `vertex` is tested before `fragment`,
a marker line containing both keyword substrings switches the active
section to vertex. -/
theorem marker_recognition_substring_based (st : ParseState) (line : String)
    (hm : strContains line "#shader" = true) :
    (parseLine st line).ssNone = st.ssNone ∧
    (parseLine st line).ssVertex = st.ssVertex ∧
    (parseLine st line).ssFragment = st.ssFragment ∧
    (strContains line "vertex" = true →
      (parseLine st line).type = ShaderType.VERTEX) ∧
    ParseShaderLines
        ["code with #shader inside", "#shader vertex fragment", "X"] =
      { VertexSource := "X\n", FragmentSource := "" } := by
  rw [parseLine_marker st line hm]
  refine ⟨rfl, rfl, rfl, ?_, by decide⟩
  intro hv
  simp [newSection, hv]

/-- Claim C10 witness at a concrete code line containing the marker
substring. -/
theorem marker_recognition_substring_based_witness :
    (parseLine initState "float x; // #shader note").ssVertex =
      initState.ssVertex :=
  (marker_recognition_substring_based initState "float x; // #shader note"
    (by decide)).2.1

/-! ## Lemmas and claims about the builder -/

/-- One `CompileShader` run returns `compileResult`, bumps the fresh id,
and appends exactly `compileEvents` to the trace. -/
theorem CompileShader_eq (gl : GLDriver) (ty : Nat) (source : String)
    (s : GLState) :
    CompileShader gl ty source s =
      (compileResult gl ty source s.nextId,
       { nextId := s.nextId + 1,
         trace := s.trace ++ compileEvents gl ty source s.nextId }) := by
  cases h : gl.compileOk ty source <;>
    simp [CompileShader, emit, compileEvents, compileResult, h,
          List.append_assoc]

/-- One `CreateShader` run returns the program name, consumes three fresh
ids, and appends the program creation, the two compile runs, both
attaches, link, validate, and both deletes to the trace, in that order. -/
theorem CreateShader_eq (gl : GLDriver) (v f : String) (s : GLState) :
    CreateShader gl v f s =
      (s.nextId,
       { nextId := s.nextId + 3,
         trace := s.trace ++ [GLCall.createProgramCall s.nextId]
           ++ compileEvents gl GL_VERTEX_SHADER v (s.nextId + 1)
           ++ compileEvents gl GL_FRAGMENT_SHADER f (s.nextId + 2)
           ++ [GLCall.attachShaderCall s.nextId
                 (compileResult gl GL_VERTEX_SHADER v (s.nextId + 1)),
               GLCall.attachShaderCall s.nextId
                 (compileResult gl GL_FRAGMENT_SHADER f (s.nextId + 2)),
               GLCall.linkProgramCall s.nextId,
               GLCall.validateProgramCall s.nextId,
               GLCall.deleteShaderCall
                 (compileResult gl GL_VERTEX_SHADER v (s.nextId + 1)),
               GLCall.deleteShaderCall
                 (compileResult gl GL_FRAGMENT_SHADER f (s.nextId + 2))] }) := by
  simp [CreateShader, CompileShader_eq, emit, List.append_assoc]

/-- No call of a `CompileShader` run is a detach or a program status
query. -/
theorem compileEvents_no_detach (gl : GLDriver) (ty : Nat) (source : String)
    (id : Nat) : ∀ c ∈ compileEvents gl ty source id,
    c.isDetach = false ∧ c.isProgramStatusQuery = false := by
  intro c hc
  cases h : gl.compileOk ty source
  · simp [compileEvents, h] at hc
    rcases hc with rfl | rfl | rfl | rfl | rfl | rfl | rfl | rfl | rfl <;>
      exact ⟨rfl, rfl⟩
  · simp [compileEvents, h] at hc
    rcases hc with rfl | rfl | rfl | rfl <;> exact ⟨rfl, rfl⟩

/-- Claim C5: when compilation of a shader unit fails, `CompileShader`
queries the log length first, then the log text into a buffer of exactly
that length, prints the failure message and the log, deletes the failed
unit's handle, and returns the null sentinel 0 instead of aborting; and
`CreateShader` still issues the compile call for both stages, so
diagnostics for both stages can surface in one pass. -/
theorem compile_failure_logged_and_null (gl : GLDriver) (ty : Nat)
    (source : String) (s : GLState)
    (h : gl.compileOk ty source = false) :
    (CompileShader gl ty source s).1 = 0 ∧
    (CompileShader gl ty source s).2.trace = s.trace ++
      [GLCall.createShaderCall ty s.nextId,
       GLCall.shaderSourceCall s.nextId source,
       GLCall.compileShaderCall s.nextId,
       GLCall.getShaderivCall s.nextId GL_COMPILE_STATUS,
       GLCall.getShaderivCall s.nextId GL_INFO_LOG_LENGTH,
       GLCall.getShaderInfoLogCall s.nextId (gl.logLen ty source)
         (gl.logText ty source),
       GLCall.printCall (failMessage ty),
       GLCall.printCall (gl.logText ty source),
       GLCall.deleteShaderCall s.nextId] ∧
    (∀ (v f : String) (s' : GLState),
      GLCall.compileShaderCall (s'.nextId + 1) ∈
        (CreateShader gl v f s').2.trace ∧
      GLCall.compileShaderCall (s'.nextId + 2) ∈
        (CreateShader gl v f s').2.trace) := by
  refine ⟨?_, ?_, ?_⟩
  · simp [CompileShader_eq, compileResult, h]
  · simp [CompileShader_eq, compileEvents, h]
  · intro v f s'
    constructor <;> simp [CreateShader_eq, compileEvents]

/-- Claim C5 witness on a driver that rejects every compilation. -/
theorem compile_failure_logged_and_null_witness :
    (CompileShader failingDriver GL_VERTEX_SHADER "bad"
      { nextId := 1, trace := [] }).1 = 0 :=
  (compile_failure_logged_and_null failingDriver GL_VERTEX_SHADER "bad"
    { nextId := 1, trace := [] } rfl).1

/-- Claim C6: for every pair of source strings (null sentinel units
included), `CreateShader` attaches both returned units to the program
unconditionally, links, validates, then deletes both intermediate units
unconditionally, and returns the program handle; its trace contains no
`glDetachShader` call and no `glGetProgramiv` call, so link and validate
status are never inspected. -/
theorem create_shader_links_unconditionally (gl : GLDriver)
    (v f : String) (s : GLState) :
    (CreateShader gl v f s).1 = s.nextId ∧
    (CreateShader gl v f s).2.trace = s.trace
      ++ [GLCall.createProgramCall s.nextId]
      ++ compileEvents gl GL_VERTEX_SHADER v (s.nextId + 1)
      ++ compileEvents gl GL_FRAGMENT_SHADER f (s.nextId + 2)
      ++ [GLCall.attachShaderCall s.nextId
            (compileResult gl GL_VERTEX_SHADER v (s.nextId + 1)),
          GLCall.attachShaderCall s.nextId
            (compileResult gl GL_FRAGMENT_SHADER f (s.nextId + 2)),
          GLCall.linkProgramCall s.nextId,
          GLCall.validateProgramCall s.nextId,
          GLCall.deleteShaderCall
            (compileResult gl GL_VERTEX_SHADER v (s.nextId + 1)),
          GLCall.deleteShaderCall
            (compileResult gl GL_FRAGMENT_SHADER f (s.nextId + 2))] ∧
    (∀ c ∈ (CreateShader gl v f s).2.trace.drop s.trace.length,
      c.isDetach = false ∧ c.isProgramStatusQuery = false) := by
  refine ⟨?_, ?_, ?_⟩
  · simp [CreateShader_eq]
  · simp [CreateShader_eq, List.append_assoc]
  · intro c hc
    have htr : (CreateShader gl v f s).2.trace =
        s.trace ++ ([GLCall.createProgramCall s.nextId]
          ++ (compileEvents gl GL_VERTEX_SHADER v (s.nextId + 1)
          ++ (compileEvents gl GL_FRAGMENT_SHADER f (s.nextId + 2)
          ++ [GLCall.attachShaderCall s.nextId
                (compileResult gl GL_VERTEX_SHADER v (s.nextId + 1)),
              GLCall.attachShaderCall s.nextId
                (compileResult gl GL_FRAGMENT_SHADER f (s.nextId + 2)),
              GLCall.linkProgramCall s.nextId,
              GLCall.validateProgramCall s.nextId,
              GLCall.deleteShaderCall
                (compileResult gl GL_VERTEX_SHADER v (s.nextId + 1)),
              GLCall.deleteShaderCall
                (compileResult gl GL_FRAGMENT_SHADER f (s.nextId + 2))]))) := by
      simp [CreateShader_eq, List.append_assoc]
    rw [htr, List.drop_left] at hc
    simp only [List.mem_append, List.mem_cons, List.not_mem_nil,
               or_false] at hc
    rcases hc with rfl | hc | hc | hc
    · exact ⟨rfl, rfl⟩
    · exact compileEvents_no_detach gl GL_VERTEX_SHADER v (s.nextId + 1) c hc
    · exact compileEvents_no_detach gl GL_FRAGMENT_SHADER f (s.nextId + 2) c hc
    · rcases hc with rfl | rfl | rfl | rfl | rfl | rfl <;> exact ⟨rfl, rfl⟩

/-- Claim C6 witness: a concrete run on the all-failing driver, checking
a concrete trace element. -/
theorem create_shader_links_unconditionally_witness :
    (GLCall.linkProgramCall 1).isDetach = false ∧
    (GLCall.linkProgramCall 1).isProgramStatusQuery = false :=
  (create_shader_links_unconditionally failingDriver "v" "f"
    { nextId := 1, trace := [] }).2.2 (GLCall.linkProgramCall 1) (by decide)

/-! ## Lemmas and claims about uniform resolution and the render loop -/

/-- `render` never touches the cached uniform location. -/
theorem advanceFrames_m_UniformLoc : ∀ (n : Nat) (st : AppState),
    (advanceFrames n st).m_UniformLoc = st.m_UniformLoc := by
  intro n
  induction n with
  | zero => intro st; rfl
  | succ k ih =>
    intro st
    simpa [advanceFrames] using ih (render st).2

/-- Crossing above 1 flips the step to -0.01. -/
theorem render_flip_high (st : AppState) (h : st.r > 1) :
    (render st).2.m_Increment = -(1/100) := by
  have h0 : ¬ st.r < 0 := by linarith
  simp [render, h, h0]
  norm_num

/-- Crossing below 0 flips the step to +0.01. -/
theorem render_flip_low (st : AppState) (h : st.r < 0) :
    (render st).2.m_Increment = 1/100 := by
  simp [render, h]

/-- Claim C7: during setup, resolving the uniform name on the built
program must not yield the not-found sentinel `-1`: if it does, setup
halts at the assertion; if it succeeds, the non-negative location is
cached once in `m_UniformLoc`, each frame issues the uniform call with
that cached location, and no frame issues a `glGetUniformLocation`
call. -/
theorem uniform_location_checked_and_cached (gl : UniformDriver)
    (program : Nat)
    (hge : gl.getUniformLocation program "u_Color" ≥ -1) :
    (gl.getUniformLocation program "u_Color" = -1 →
      initApp gl program = none) ∧
    (gl.getUniformLocation program "u_Color" ≠ -1 →
      ∃ st : AppState, initApp gl program = some st ∧
        st.m_UniformLoc = gl.getUniformLocation program "u_Color" ∧
        0 ≤ st.m_UniformLoc ∧
        ∀ n : Nat,
          (advanceFrames n st).m_UniformLoc = st.m_UniformLoc ∧
          RenderCall.uniform4fCall st.m_UniformLoc (advanceFrames n st).r
              (3/10) (4/5) 1 ∈ (render (advanceFrames n st)).1 ∧
          ∀ c ∈ (render (advanceFrames n st)).1,
            ∀ (p : Nat) (nm : String),
              c ≠ RenderCall.getUniformLocationCall p nm) := by
  constructor
  · intro h
    simp [initApp, h]
  · intro h
    refine ⟨{ m_Shader := program,
              m_UniformLoc := gl.getUniformLocation program "u_Color",
              m_Increment := 1/20, r := 0 }, ?_, rfl, ?_, ?_⟩
    · simp [initApp, h]
    · show (0 : Int) ≤ gl.getUniformLocation program "u_Color"
      omega
    · intro n
      refine ⟨advanceFrames_m_UniformLoc n _, ?_, ?_⟩
      · simp [render, advanceFrames_m_UniformLoc n]
      · intro c hc p nm
        simp [render] at hc
        rcases hc with rfl | rfl | rfl | rfl | rfl <;> simp

/-- Claim C7 witness: setup halts on a driver that never finds the
uniform, and completes on one that does. -/
theorem uniform_location_checked_and_cached_witness :
    initApp lostDriver 1 = none ∧ initApp foundDriver 1 ≠ none := by
  constructor
  · exact (uniform_location_checked_and_cached lostDriver 1 (by decide)).1 rfl
  · obtain ⟨st, hst, -⟩ :=
      (uniform_location_checked_and_cached foundDriver 1 (by decide)).2
        (by decide)
    rw [hst]
    simp

/-- Advancing the render loop composes additively. -/
theorem advanceFrames_add (m n : Nat) : ∀ st : AppState,
    advanceFrames (m + n) st = advanceFrames m (advanceFrames n st) := by
  induction n with
  | zero => intro st; rfl
  | succ k ih => intro st; exact ih (render st).2

set_option maxRecDepth 4000 in
/-- After 20 frames the scalar has climbed to exactly 1. -/
theorem framesAt20 : advanceFrames 20 (initialApp 1 0) =
    { m_Shader := 1, m_UniformLoc := 0, m_Increment := 1/20, r := 1 } := by
  norm_num [advanceFrames, render, initialApp]

/-- After 22 frames the scalar has crossed 1 and the step has flipped. -/
theorem framesAt22 : advanceFrames 22 (initialApp 1 0) =
    { m_Shader := 1, m_UniformLoc := 0, m_Increment := -(1/100),
      r := 26/25 } := by
  have h : advanceFrames 22 (initialApp 1 0) =
      advanceFrames 2 (advanceFrames 20 (initialApp 1 0)) := by
    rw [show (22 : Nat) = 2 + 20 from rfl, advanceFrames_add]
  rw [h, framesAt20]
  norm_num [advanceFrames, render]

/-- One frame later the scalar has decreased. -/
theorem framesAt23 : advanceFrames 23 (initialApp 1 0) =
    { m_Shader := 1, m_UniformLoc := 0, m_Increment := -(1/100),
      r := 103/100 } := by
  have h : advanceFrames 23 (initialApp 1 0) =
      advanceFrames 1 (advanceFrames 22 (initialApp 1 0)) := by
    rw [show (23 : Nat) = 1 + 22 from rfl, advanceFrames_add]
  rw [h, framesAt22]
  norm_num [advanceFrames, render]

set_option maxRecDepth 8000 in
set_option maxHeartbeats 1600000 in
/-- After 127 frames the scalar has crossed below 0. -/
theorem framesAt127 : advanceFrames 127 (initialApp 1 0) =
    { m_Shader := 1, m_UniformLoc := 0, m_Increment := -(1/100),
      r := -(1/100) } := by
  have h : advanceFrames 127 (initialApp 1 0) =
      advanceFrames 104 (advanceFrames 23 (initialApp 1 0)) := by
    rw [show (127 : Nat) = 104 + 23 from rfl, advanceFrames_add]
  rw [h, framesAt23]
  norm_num [advanceFrames, render]

/-- One frame later the step has flipped back to +0.01. -/
theorem framesAt128 : advanceFrames 128 (initialApp 1 0) =
    { m_Shader := 1, m_UniformLoc := 0, m_Increment := 1/100, r := 0 } := by
  have h : advanceFrames 128 (initialApp 1 0) =
      advanceFrames 1 (advanceFrames 127 (initialApp 1 0)) := by
    rw [show (128 : Nat) = 1 + 127 from rfl, advanceFrames_add]
  rw [h, framesAt127]
  norm_num [advanceFrames, render]

/-- One frame later still, the scalar is increasing again. -/
theorem framesAt129 : advanceFrames 129 (initialApp 1 0) =
    { m_Shader := 1, m_UniformLoc := 0, m_Increment := 1/100,
      r := 1/100 } := by
  have h : advanceFrames 129 (initialApp 1 0) =
      advanceFrames 1 (advanceFrames 128 (initialApp 1 0)) := by
    rw [show (129 : Nat) = 1 + 128 from rfl, advanceFrames_add]
  rw [h, framesAt128]
  norm_num [advanceFrames, render]

/-- Claim C8: the animated scalar starts at 0.0 with step +0.05 and is
advanced by its step once per frame; crossing above 1.0 flips the step to
-0.01 and crossing below 0.0 flips it to +0.01.  Concretely, from the
initial state the value reaches 1 after 20 frames, the step has flipped
to -0.01 by frame 22 and the value then decreases, the value has crossed
below 0 by frame 127, the step has flipped to +0.01 by frame 128 and the
value then increases; and the other three color channels of the uniform
call are the constants 0.3, 0.8, 1.0 on every frame. -/
theorem color_scalar_oscillation :
    (∀ (program : Nat) (loc : Int),
      (initialApp program loc).r = 0 ∧
      (initialApp program loc).m_Increment = 1/20) ∧
    (∀ st : AppState, (render st).2.r = st.r + (render st).2.m_Increment) ∧
    (∀ st : AppState, st.r > 1 → (render st).2.m_Increment = -(1/100)) ∧
    (∀ st : AppState, st.r < 0 → (render st).2.m_Increment = 1/100) ∧
    (advanceFrames 20 (initialApp 1 0)).r ≥ 1 ∧
    (advanceFrames 22 (initialApp 1 0)).m_Increment = -(1/100) ∧
    (advanceFrames 23 (initialApp 1 0)).r <
      (advanceFrames 22 (initialApp 1 0)).r ∧
    (advanceFrames 127 (initialApp 1 0)).r < 0 ∧
    (advanceFrames 128 (initialApp 1 0)).m_Increment = 1/100 ∧
    (advanceFrames 129 (initialApp 1 0)).r >
      (advanceFrames 128 (initialApp 1 0)).r ∧
    (∀ st : AppState, (render st).1 =
      [RenderCall.useProgramCall st.m_Shader,
       RenderCall.uniform4fCall st.m_UniformLoc st.r (3/10) (4/5) 1,
       RenderCall.bindVertexArrayCall,
       RenderCall.bindIndexBufferCall,
       RenderCall.drawElementsCall GL_TRIANGLES 6 GL_UNSIGNED_INT]) := by
  refine ⟨fun program loc => ⟨rfl, rfl⟩, fun st => rfl,
          render_flip_high, render_flip_low,
          ?_, ?_, ?_, ?_, ?_, ?_, fun st => rfl⟩
  · rw [framesAt20]
  · rw [framesAt22]
  · rw [framesAt22, framesAt23]
    norm_num
  · rw [framesAt127]
    norm_num
  · rw [framesAt128]
  · rw [framesAt128, framesAt129]
    norm_num

/-- Claim C8 witness: the step flips to -0.01 at a concrete state whose
scalar exceeds 1. -/
theorem color_scalar_oscillation_witness :
    (render { m_Shader := 1, m_UniformLoc := 0, m_Increment := 1/20,
              r := 2 }).2.m_Increment = -(1/100) :=
  color_scalar_oscillation.2.2.1
    { m_Shader := 1, m_UniformLoc := 0, m_Increment := 1/20, r := 2 }
    (by norm_num)
